import Mathlib

/-!
Shallow embedding of `src/assets/notifications.js` (the NotificationBridge
module of HealthWhisperer).  The module wraps the browser Notification
capability in four stateless operations: `permissionStatus`,
`requestPermission`, `notify` and `isInIframe`.

The host environment is modelled by `Env`.  The Web platform can raise an
exception only at the sites the source guards with `try`/`catch`: the
permission prompt (`Notification.requestPermission()`), notification
construction (`new Notification(...)`), assignment of the click handler,
and access to the top-level window reference.  Reads of
`Notification.permission` and the `'Notification' in window` capability
check are plain property reads that cannot throw, so `Env` carries them as
plain fields.  The platform guarantees that `Notification.permission` is
one of the three strings "granted", "denied", "default"; that guarantee is
the predicate `validPerm` and appears as a hypothesis where a claim needs
it.
-/

namespace HealthWhisperer

/-- Host environment as observed by the script: whether the Notification
capability exists, the current platform permission string, whether the
notification constructor throws, whether assigning the click handler
throws, the top-level window reference (`none` when the access throws,
e.g. cross-origin denial), and the identity of the current window. -/
structure Env where
  hasNotification : Bool
  permission : String
  ctorThrows : Bool
  onclickAssignThrows : Bool
  topWindow : Option Nat
  selfWindow : Nat
deriving DecidableEq, Repr

/-- Platform guarantee on the value of `Notification.permission` and on
the value a successful permission prompt resolves with. -/
def validPerm (s : String) : Prop :=
  s = "granted" ∨ s = "denied" ∨ s = "default"

instance (s : String) : Decidable (validPerm s) :=
  inferInstanceAs (Decidable (s = "granted" ∨ s = "denied" ∨ s = "default"))

/-- Embedding of `permissionStatus()`:
`if (!('Notification' in window)) return 'unsupported'; return Notification.permission;`. -/
def permissionStatus (env : Env) : String :=
  if !env.hasNotification then "unsupported"
  else env.permission

/-- Behaviour of the platform permission prompt
`Notification.requestPermission()`: it either resolves with a permission
string or throws/rejects. -/
inductive PromptOutcome where
  | resolved (r : String)
  | rejected
deriving DecidableEq, Repr

/-- Embedding of the asynchronous `requestPermission()`.  `env` is the
environment when the call starts; `envNow` is the environment at the
moment the `catch` handler would run (permission may have changed while
the prompt was open), since the source re-reads the platform state there
via `permissionStatus()`. -/
def requestPermission (env : Env) (outcome : PromptOutcome) (envNow : Env) : String :=
  if !env.hasNotification then "unsupported"
  else
    match outcome with
    | .resolved r => r
    | .rejected => permissionStatus envNow

/-- Observable content of a constructed notification: the title, the
options `body` and `tag` passed to `new Notification`, and whether the
click handler was successfully attached afterwards. -/
structure NotifDisplay where
  title : String
  body : String
  tag : String
  clickHandlerAttached : Bool
deriving DecidableEq, Repr

/-- JavaScript `v || d` for an argument of type `string | undefined`:
`undefined` and the empty string are the only falsy such values. -/
def jsOrString (v : Option String) (d : String) : String :=
  match v with
  | none => d
  | some s => if s = "" then d else s

/-- Embedding of `notify(title, body)`.  Returns the sentinel string
together with the list of notifications the call constructed and
displayed.  The capability and permission checks are outside the `try`;
construction is inside it; the click-handler assignment has its own
`try`/`catch`, so its failure does not change the result. -/
def notify (env : Env) (title body : Option String) : String × List NotifDisplay :=
  if !env.hasNotification then ("unsupported", [])
  else if env.permission ≠ "granted" then ("blocked", [])
  else if env.ctorThrows then ("blocked", [])
  else
    ("shown",
      [{ title := jsOrString title "Health Whisperer"
         body := jsOrString body ""
         tag := "health-whisperer"
         clickHandlerAttached := !env.onclickAssignThrows }])

/-- Embedding of `isInIframe()`:
`try { return window.top !== window.self; } catch(e){ return true; }`. -/
def isInIframe (env : Env) : Bool :=
  match env.topWindow with
  | none => true
  | some t => t != env.selfWindow

/-- Environment used by concrete counterexamples and witnesses: the
capability is present, permission is granted, nothing throws, and the
window is top-level. -/
def grantedEnv : Env :=
  { hasNotification := true
    permission := "granted"
    ctorThrows := false
    onclickAssignThrows := false
    topWindow := some 0
    selfWindow := 0 }

/-- C1 counterexample: the claim quantifies over every title string, but at
the empty title `notify` shows the notification with the replacement title
"Health Whisperer", not with the empty title, because the source computes
`title || 'Health Whisperer'` and the empty string is falsy. -/
theorem notify_empty_title_cex :
    (notify grantedEnv (some "") (some "b")).1 = "shown" ∧
    (notify grantedEnv (some "") (some "b")).2.map NotifDisplay.title
      = ["Health Whisperer"] ∧
    ("Health Whisperer" : String) ≠ "" := by
  refine ⟨rfl, rfl, by decide⟩

/-- C1 (amended): for every nonempty title string T and every body string
B, if the capability is present, permission is "granted" and the
constructor does not throw, `notify(T, B)` returns "shown" and constructs
exactly one notification with title T, body B and tag "health-whisperer". -/
theorem notify_granted_shows_title_body (env : Env) (T B : String)
    (hc : env.hasNotification = true) (hp : env.permission = "granted")
    (ht : env.ctorThrows = false) (hT : T ≠ "") :
    notify env (some T) (some B)
      = ("shown",
          [{ title := T, body := B, tag := "health-whisperer"
             clickHandlerAttached := !env.onclickAssignThrows }]) := by
  unfold notify jsOrString
  simp [hc, hp, ht, hT]
  by_cases hB : B = "" <;> simp [hB]

/-- Witness for C1 (amended) at a concrete environment and arguments. -/
theorem notify_granted_shows_title_body_wit :
    notify grantedEnv (some "T") (some "B")
      = ("shown",
          [{ title := "T", body := "B", tag := "health-whisperer"
             clickHandlerAttached := true }]) :=
  notify_granted_shows_title_body grantedEnv "T" "B" rfl rfl rfl (by decide)

/-- C2: with the capability present, if permission is "denied" or
"default", or the notification constructor throws, `notify` returns
"blocked" and displays nothing. -/
theorem notify_blocked_no_display (env : Env) (title body : Option String)
    (hc : env.hasNotification = true)
    (h : env.permission = "denied" ∨ env.permission = "default"
          ∨ env.ctorThrows = true) :
    notify env title body = ("blocked", []) := by
  unfold notify
  rcases h with h | h | h
  · simp [hc, h]
  · simp [hc, h]
  · by_cases hp : env.permission = "granted" <;> simp [hc, h, hp]

/-- Witness for C2 at a concrete environment (permission "denied"). -/
theorem notify_blocked_no_display_wit :
    notify { grantedEnv with permission := "denied" } (some "T") (some "B")
      = ("blocked", []) :=
  notify_blocked_no_display _ _ _ rfl (Or.inl rfl)

/-- C3: `requestPermission` never raises; when the platform prompt throws
or rejects, it returns exactly what `permissionStatus()` returns at that
moment (`envNow`, the environment when the catch handler runs). -/
theorem requestPermission_fallback (env envNow : Env)
    (hc : env.hasNotification = true) :
    requestPermission env .rejected envNow = permissionStatus envNow := by
  unfold requestPermission
  simp [hc]

/-- Witness for C3 at concrete environments: the prompt fails and the
result equals the current permission status. -/
theorem requestPermission_fallback_wit :
    requestPermission grantedEnv .rejected
        { grantedEnv with permission := "denied" }
      = permissionStatus { grantedEnv with permission := "denied" } :=
  requestPermission_fallback grantedEnv _ rfl

/-- C4: in every environment lacking the Notification capability,
`permissionStatus` returns "unsupported", `notify` returns "unsupported"
and displays nothing, and `requestPermission` returns "unsupported"
whatever the prompt would do (the prompt is never consulted). -/
theorem unsupported_env_ops (env envNow : Env) (outcome : PromptOutcome)
    (title body : Option String) (hc : env.hasNotification = false) :
    permissionStatus env = "unsupported"
      ∧ notify env title body = ("unsupported", [])
      ∧ requestPermission env outcome envNow = "unsupported" := by
  unfold permissionStatus notify requestPermission
  simp [hc]

/-- Witness for C4 at a concrete capability-less environment. -/
theorem unsupported_env_ops_wit :
    permissionStatus { grantedEnv with hasNotification := false }
        = "unsupported"
      ∧ notify { grantedEnv with hasNotification := false }
          (some "T") (some "B") = ("unsupported", [])
      ∧ requestPermission { grantedEnv with hasNotification := false }
          (.resolved "granted") grantedEnv = "unsupported" :=
  unsupported_env_ops _ grantedEnv (.resolved "granted")
    (some "T") (some "B") rfl

/-- C5: with the capability present, `permissionStatus` passes the
platform permission value through unchanged. -/
theorem permissionStatus_passthrough (env : Env)
    (hc : env.hasNotification = true) :
    permissionStatus env = env.permission := by
  unfold permissionStatus
  simp [hc]

/-- Witness for C5 at a concrete environment. -/
theorem permissionStatus_passthrough_wit :
    permissionStatus grantedEnv = grantedEnv.permission :=
  permissionStatus_passthrough grantedEnv rfl

/-- C6: `isInIframe` returns true exactly when the top-window access
throws (modelled as `topWindow = none`) or the top reference differs from
the current window; it returns false exactly when the comparison succeeds
with equal references, and being a total Bool-valued function it never
propagates the exception. -/
theorem isInIframe_iff (env : Env) :
    isInIframe env = true
      ↔ (env.topWindow = none
          ∨ ∃ t, env.topWindow = some t ∧ t ≠ env.selfWindow) := by
  unfold isInIframe
  cases h : env.topWindow with
  | none => simp
  | some t => simp [bne_iff_ne]

/-- C7: for every environment, every prompt behaviour and all arguments
(including every combination of the platform throw flags), each of the
four operations returns one of its sentinel values; no platform exception
reaches the caller.  The hypotheses are the platform guarantee that
permission reads and prompt resolutions yield one of the three permission
strings. -/
theorem ops_never_raise (env envNow : Env) (outcome : PromptOutcome)
    (title body : Option String)
    (h1 : validPerm env.permission) (h2 : validPerm envNow.permission)
    (h3 : ∀ r, outcome = .resolved r → validPerm r) :
    permissionStatus env ∈ ["granted", "denied", "default", "unsupported"]
      ∧ requestPermission env outcome envNow
          ∈ ["granted", "denied", "default", "unsupported"]
      ∧ (notify env title body).1 ∈ ["shown", "blocked", "unsupported"]
      ∧ (isInIframe env = true ∨ isInIframe env = false) := by
  refine ⟨?_, ?_, ?_, ?_⟩
  · unfold permissionStatus
    rcases env.hasNotification with _ | _
    · simp
    · rcases h1 with h | h | h <;> simp [h]
  · unfold requestPermission permissionStatus
    rcases hc : env.hasNotification with _ | _
    · simp
    · cases outcome with
      | resolved r =>
          rcases h3 r rfl with h | h | h <;> simp [h]
      | rejected =>
          rcases envNow.hasNotification with _ | _
          · simp
          · rcases h2 with h | h | h <;> simp [h]
  · unfold notify
    rcases env.hasNotification with _ | _
    · simp
    · by_cases hp : env.permission = "granted" <;>
        rcases env.ctorThrows with _ | _ <;> simp [hp]
  · rcases h : isInIframe env with _ | _
    · exact Or.inr rfl
    · exact Or.inl rfl

/-- Witness for C7 at a concrete environment where the prompt rejects, the
constructor throws and the top-window access throws. -/
theorem ops_never_raise_wit :
    permissionStatus { grantedEnv with ctorThrows := true, topWindow := none }
        ∈ ["granted", "denied", "default", "unsupported"]
      ∧ requestPermission { grantedEnv with ctorThrows := true, topWindow := none }
          .rejected grantedEnv
          ∈ ["granted", "denied", "default", "unsupported"]
      ∧ (notify { grantedEnv with ctorThrows := true, topWindow := none }
            (some "T") (some "B")).1 ∈ ["shown", "blocked", "unsupported"]
      ∧ (isInIframe { grantedEnv with ctorThrows := true, topWindow := none } = true
          ∨ isInIframe { grantedEnv with ctorThrows := true, topWindow := none } = false) :=
  ops_never_raise _ grantedEnv .rejected (some "T") (some "B")
    (Or.inl rfl) (Or.inl rfl) (fun r h => by cases h)

/-- C8: with the capability present, permission "granted" and a
non-throwing constructor, `notify()` with no arguments constructs the
notification with title "Health Whisperer" and empty body. -/
theorem notify_no_arguments (env : Env)
    (hc : env.hasNotification = true) (hp : env.permission = "granted")
    (ht : env.ctorThrows = false) :
    notify env none none
      = ("shown",
          [{ title := "Health Whisperer", body := "", tag := "health-whisperer"
             clickHandlerAttached := !env.onclickAssignThrows }]) := by
  unfold notify jsOrString
  simp [hc, hp, ht]

/-- Witness for C8 at a concrete environment. -/
theorem notify_no_arguments_wit :
    notify grantedEnv none none
      = ("shown",
          [{ title := "Health Whisperer", body := "", tag := "health-whisperer"
             clickHandlerAttached := true }]) :=
  notify_no_arguments grantedEnv rfl rfl rfl

/-- C9: under the platform guarantee on permission values, the value
`permissionStatus` returns (and the one `requestPermission` resolves with)
is one of "granted", "denied", "default", "unsupported", and the result of
`notify` is one of "shown", "blocked", "unsupported". -/
theorem results_in_range (env envNow : Env) (outcome : PromptOutcome)
    (title body : Option String)
    (h1 : validPerm env.permission) (h2 : validPerm envNow.permission)
    (h3 : ∀ r, outcome = .resolved r → validPerm r) :
    (permissionStatus env = "granted" ∨ permissionStatus env = "denied"
        ∨ permissionStatus env = "default" ∨ permissionStatus env = "unsupported")
      ∧ (requestPermission env outcome envNow = "granted"
          ∨ requestPermission env outcome envNow = "denied"
          ∨ requestPermission env outcome envNow = "default"
          ∨ requestPermission env outcome envNow = "unsupported")
      ∧ ((notify env title body).1 = "shown"
          ∨ (notify env title body).1 = "blocked"
          ∨ (notify env title body).1 = "unsupported") := by
  refine ⟨?_, ?_, ?_⟩
  · unfold permissionStatus
    rcases env.hasNotification with _ | _
    · simp
    · rcases h1 with h | h | h <;> simp [h]
  · unfold requestPermission permissionStatus
    rcases env.hasNotification with _ | _
    · simp
    · cases outcome with
      | resolved r =>
          rcases h3 r rfl with h | h | h <;> simp [h]
      | rejected =>
          rcases envNow.hasNotification with _ | _
          · simp
          · rcases h2 with h | h | h <;> simp [h]
  · unfold notify
    rcases env.hasNotification with _ | _
    · simp
    · by_cases hp : env.permission = "granted" <;>
        rcases env.ctorThrows with _ | _ <;> simp [hp]

/-- Witness for C9 at a concrete environment with a successful prompt. -/
theorem results_in_range_wit :
    (permissionStatus grantedEnv = "granted"
        ∨ permissionStatus grantedEnv = "denied"
        ∨ permissionStatus grantedEnv = "default"
        ∨ permissionStatus grantedEnv = "unsupported")
      ∧ (requestPermission grantedEnv (.resolved "denied") grantedEnv = "granted"
          ∨ requestPermission grantedEnv (.resolved "denied") grantedEnv = "denied"
          ∨ requestPermission grantedEnv (.resolved "denied") grantedEnv = "default"
          ∨ requestPermission grantedEnv (.resolved "denied") grantedEnv = "unsupported")
      ∧ ((notify grantedEnv none none).1 = "shown"
          ∨ (notify grantedEnv none none).1 = "blocked"
          ∨ (notify grantedEnv none none).1 = "unsupported") :=
  results_in_range grantedEnv grantedEnv (.resolved "denied") none none
    (Or.inl rfl) (Or.inl rfl)
    (fun r h => by cases h; exact Or.inr (Or.inl rfl))

/-- C10: with the capability present, permission "granted" and a
non-throwing constructor, a falsy title (the empty string, or an absent
argument) is replaced by "Health Whisperer", and a falsy body is replaced
by the empty string. -/
theorem notify_falsy_replacement (env : Env) (title body : Option String)
    (hc : env.hasNotification = true) (hp : env.permission = "granted")
    (ht : env.ctorThrows = false) :
    (notify env (some "") body).2.map NotifDisplay.title = ["Health Whisperer"]
      ∧ (notify env none body).2.map NotifDisplay.title = ["Health Whisperer"]
      ∧ (notify env title (some "")).2.map NotifDisplay.body = [""]
      ∧ (notify env title none).2.map NotifDisplay.body = [""] := by
  unfold notify jsOrString
  simp [hc, hp, ht]

/-- Witness for C10 at a concrete environment and arguments. -/
theorem notify_falsy_replacement_wit :
    (notify grantedEnv (some "") (some "B")).2.map NotifDisplay.title
        = ["Health Whisperer"]
      ∧ (notify grantedEnv none (some "B")).2.map NotifDisplay.title
        = ["Health Whisperer"]
      ∧ (notify grantedEnv (some "T") (some "")).2.map NotifDisplay.body = [""]
      ∧ (notify grantedEnv (some "T") none).2.map NotifDisplay.body = [""] :=
  notify_falsy_replacement grantedEnv (some "T") (some "B") rfl rfl rfl

end HealthWhisperer
